import Mathlib

/-!
# Verification of the Simple Free AI SDR system

A shallow embedding of `simple_free_sdr.py`: the conversation store, the
draft-generation helpers with their fallback paths, the reply handler, the
IMAP polling cycle and the webhook entry point.  External collaborators
(the OpenAI chat call and the SMTP send) are modelled as function
parameters; a collaborator call that raises an exception in Python is
modelled by the collaborator returning `none` / `false`.
-/

set_option autoImplicit false

namespace SimpleSDR

/-- The text-generation collaborator (`openai.chat.completions.create`):
given the prompt it either returns the generated text (`some`) or raises
(`none`).  Every call site in the source wraps this call in `try/except`. -/
abbrev Model := String → Option String

/-- The SMTP transport (`send_email_smtp`, lines 155-196): takes
`(to_email, subject, body)` and reports success as a boolean; exceptions
are caught inside the function and reported as `false`. -/
abbrev Send := String → String → String → Bool

/-- `self.conversations` (line 75): a Python dict from key to thread text.
Modelled as an association list where the most recent binding for a key
comes first, which matches the dict's observable get/set behaviour. -/
abbrev ConvStore := List (String × String)

/-- Python `str.lower()`: lower-case every character.  (Char-list
implementation, extensionally `String.toLower`, chosen so the kernel can
evaluate it.) -/
def lower (s : String) : String := ⟨s.data.map Char.toLower⟩

/-- Python `str.strip()`: drop whitespace from both ends.  (Char-list
implementation, extensionally `String.trim`.) -/
def strip (s : String) : String :=
  ⟨((s.data.dropWhile Char.isWhitespace).reverse.dropWhile Char.isWhitespace).reverse⟩

/-- Python `str.startswith(pre)`.  (Char-list implementation,
extensionally `String.startsWith`.) -/
def starts_with (s pre : String) : Bool := pre.data.isPrefixOf s.data

/-- Python `str.replace('"', '')`: delete every double-quote character. -/
def remove_quotes (s : String) : String := ⟨s.data.filter (fun c => !(c == '"'))⟩

/-- Python `dict.get(key)`: the most recent binding of `key`, if any. -/
def dictGet : ConvStore → String → Option String
  | [], _ => none
  | (k, v) :: rest, key => if k = key then some v else dictGet rest key

/-- Python `dict[key] = v`: bind `key` to `v`, shadowing any old binding. -/
def dictPut (store : ConvStore) (key v : String) : ConvStore :=
  (key, v) :: store

/-- Conversation Store lookup as done at both call sites (lines 302-304 and
367-369): the dict is read at the lower-cased address. -/
def conv_get (store : ConvStore) (addr : String) : Option String :=
  dictGet store (lower addr)

/-- Conversation Store write as done at both call sites: the dict is
written at the lower-cased address. -/
def conv_put (store : ConvStore) (addr text : String) : ConvStore :=
  dictPut store (lower addr) text

/-- `self.company_name` (line 71). -/
def company_name : String := "ComplAI"

/-- `self.company_description` (line 72). -/
def company_description : String := "AI-powered SOC2 compliance automation"

/-- The `personas` dict of `generate_cold_email` (lines 90-94). -/
def personas (persona : String) : Option String :=
  if persona = "professional" then
    some "Write a professional, formal cold sales email"
  else if persona = "engaging" then
    some "Write a witty, engaging cold sales email that\x27s likely to get a response"
  else if persona = "concise" then
    some "Write a brief, direct cold sales email that gets straight to the point"
  else none

/-- `personas["professional"]`, the default of `personas.get` (line 97). -/
def professional_tone : String := "Write a professional, formal cold sales email"

/-- The prompt f-string of `generate_cold_email` (lines 96-105), with the
f-string's indentation whitespace elided. -/
def cold_email_prompt (persona recipient : String) : String :=
  ((personas persona).getD professional_tone) ++
  ".\n\nCompany: " ++ company_name ++
  "\nProduct: " ++ company_description ++
  "\nRecipient: " ++ recipient ++
  "\n\nMake it compelling and personalized. Include a clear call to action.\nKeep it under 150 words."

/-- The hardcoded fallback email of `generate_cold_email` (line 117). -/
def fallback_cold_email (recipient : String) : String :=
  "Hi " ++ recipient ++ ",\n\nI\x27d love to show you how " ++ company_name ++
  " can help with " ++ company_description ++
  ".\n\nInterested in a quick chat?\n\nBest regards"

/-- `generate_cold_email` (lines 79-117): ask the model; on success return
the stripped content, on any exception return the canned fallback. -/
def generate_cold_email (model : Model) (persona : String) (recipient : String) : String :=
  match model (cold_email_prompt persona recipient) with
  | some content => strip content
  | none => fallback_cold_email recipient

/-- The prompt f-string of `select_best_email` (lines 129-141), built from
the first three list elements, with indentation whitespace elided. -/
def select_prompt (e0 e1 e2 : String) : String :=
  "Pick the best cold sales email from these options. Consider which one a busy executive would be most likely to respond to." ++
  "\n\nReturn only the selected email, no explanation.\n\nOptions:\n\n1. " ++ e0 ++
  "\n\n2. " ++ e1 ++ "\n\n3. " ++ e2

/-- `select_best_email` (lines 119-153).  The prompt construction indexes
`emails[0]`, `emails[1]`, `emails[2]` BEFORE the `try` block, so a list
with fewer than three elements raises `IndexError` and the exception
propagates (modelled as `Except.error`).  Only the model call is guarded:
on model failure the function returns `emails[0]`. -/
def select_best_email (model : Model) (emails : List String) : Except String String :=
  match emails.get? 0, emails.get? 1, emails.get? 2 with
  | some e0, some e1, some e2 =>
    match model (select_prompt e0 e1 e2) with
    | some content => Except.ok (strip content)
    | none => Except.ok e0
  | _, _, _ => Except.error "IndexError: list index out of range"

/-- The prompt f-string of `generate_reply` (lines 209-227), with
indentation whitespace elided. -/
def reply_prompt (original_email reply_content : String) : String :=
  "You are a sales representative for " ++ company_name ++ ", which provides " ++
  company_description ++
  ".\n\nA prospect replied to your cold email. Generate a helpful, professional response that continues the conversation." ++
  "\n\nOriginal email you sent:\n" ++ original_email ++
  "\n\nTheir reply:\n" ++ reply_content ++
  "\n\nWrite a response that:\n1. Acknowledges their reply\n2. Provides helpful information\n3. Moves the conversation forward\n4. Includes a clear next step" ++
  "\n\nKeep it conversational and under 200 words."

/-- The hardcoded fallback follow-up of `generate_reply` (line 239). -/
def fallback_reply : String :=
  "Thank you for your reply! I\x27d love to continue our conversation. When would be a good time for a brief call?"

/-- `generate_reply` (lines 198-239): ask the model for a follow-up; on any
exception return the canned fallback. -/
def generate_reply (model : Model) (original_email reply_content : String) : String :=
  match model (reply_prompt original_email reply_content) with
  | some content => strip content
  | none => fallback_reply

/-- The reply-subject computation of `handle_reply` (line 310):
`f"Re: {subject}" if not subject.startswith(\x27Re:\x27) else subject`. -/
def reply_subject (subject : String) : String :=
  if starts_with subject "Re:" then subject else "Re: " ++ subject

/-- The thread update written by `handle_reply` on send success (line 315):
`f"{original_email}\n\n--- THEIR REPLY ---\n{body}\n\n--- MY REPLY ---\n{reply}"`. -/
def thread_update (original_email body reply : String) : String :=
  original_email ++ "\n\n--- THEIR REPLY ---\n" ++ body ++ "\n\n--- MY REPLY ---\n" ++ reply

/-- The arguments `handle_reply` passes to `send_email_smtp` (line 311). -/
structure SendCall where
  to_email : String
  subject : String
  body : String
deriving DecidableEq

/-- `handle_reply` (lines 291-318): read the prior thread at the
lower-cased sender address (empty string if absent), generate the
follow-up, compute the reply subject, send, and ONLY on send success write
the three-part thread update back to the store.  Returns the store after
the call, the send call that was made, and the send's success flag. -/
def handle_reply (model : Model) (send : Send) (store : ConvStore)
    (from_email subject body : String) : ConvStore × SendCall × Bool :=
  let conversation_key := lower from_email
  let original_email := (dictGet store conversation_key).getD ""
  let reply := generate_reply model original_email body
  let rsubj := reply_subject subject
  let success := send from_email rsubj reply
  if success then
    (dictPut store conversation_key (thread_update original_email body reply),
     ⟨from_email, rsubj, reply⟩, true)
  else
    (store, ⟨from_email, rsubj, reply⟩, false)

/-- `handle_webhook_reply` (lines 403-427): the webhook route extracts
`(from, subject, body)` and then constructs a NEW `SimpleSDR()` instance
(line 420), whose `conversations` dict starts empty (line 75), and calls
`handle_reply` on that fresh instance.  The long-lived SDR's store
(`shared`) is neither read nor written by the request.  Returns the shared
store after the request and the request-local instance's store. -/
def handle_webhook_reply (model : Model) (send : Send) (shared : ConvStore)
    (from_email subject body : String) : ConvStore × ConvStore :=
  let fresh : ConvStore := []
  let r := handle_reply model send fresh from_email subject body
  (shared, r.1)

/-- The subject-line prompt of `run_cold_email_campaign` (line 348). -/
def subject_prompt (best_email : String) : String :=
  "Write a compelling email subject line for this cold sales email:\n\n" ++ best_email ++
  "\n\nMake it likely to get opened. Under 50 characters."

/-- The subject-line step of `run_cold_email_campaign` (lines 350-359):
strip the model output and delete double quotes; on any exception fall
back to the templated subject. -/
def campaign_subject (model : Model) (best_email : String) : String :=
  match model (subject_prompt best_email) with
  | some content => remove_quotes (strip content)
  | none => "Quick question about " ++ company_name

/-- `run_cold_email_campaign` (lines 320-378), one recipient at a time:
generate the three persona drafts in fixed order (each with the default
recipient title "CEO", line 339), select the best via `select_best_email`
(an `IndexError` there would propagate, modelled by `Except`), generate
the subject, send, and on send success seed the store at the lower-cased
recipient address with the selected draft (line 369). -/
def run_cold_email_campaign (model : Model) (send : Send) (store : ConvStore) :
    List String → Except String ConvStore
  | [] => Except.ok store
  | recipient :: rest =>
    let emails := ["professional", "engaging", "concise"].map
      (fun p => generate_cold_email model p "CEO")
    match select_best_email model emails with
    | Except.error e => Except.error e
    | Except.ok best_email =>
      let subject := campaign_subject model best_email
      let store2 :=
        if send recipient subject best_email then
          dictPut store (lower recipient) best_email
        else store
      run_cold_email_campaign model send store2 rest

/-- One inbound message as assembled by `check_for_replies` (lines
256-275): the IMAP message id together with the extracted From header,
Subject header and plain-text body. -/
structure InboundMessage where
  msg_id : Nat
  from_email : String
  subject : String
  body : String
deriving DecidableEq

/-- The remote mailbox: its messages and the set of ids flagged `\Seen`. -/
structure Mailbox where
  messages : List InboundMessage
  seen : List Nat
deriving DecidableEq

/-- The `UNSEEN` search of `check_for_replies` (line 253): the messages
whose id is not flagged seen, in mailbox order. -/
def unseen_messages (mb : Mailbox) : List InboundMessage :=
  mb.messages.filter (fun m => !(mb.seen.contains m.msg_id))

/-- The per-message loop of `check_for_replies` (lines 256-283): for each
message, `handle_reply` is invoked FIRST and `mail.store(msg_id, '+FLAGS',
'\Seen')` runs only after it returns.  The whole loop sits inside the
single `try/except` of `check_for_replies`, so a handler exception
(`handler m = false`) aborts the cycle: the raising message and all later
ones stay unflagged.  Returns the messages the handler was invoked on and
the updated seen set. -/
def process_messages (handler : InboundMessage → Bool) :
    List InboundMessage → List Nat → List InboundMessage × List Nat
  | [], seen => ([], seen)
  | m :: rest, seen =>
    if handler m then
      let r := process_messages handler rest (seen ++ [m.msg_id])
      (m :: r.1, r.2)
    else
      ([m], seen)

/-- `check_for_replies` (lines 241-289): one polling cycle over the unseen
messages.  Returns the messages delivered to the handler and the mailbox
after the cycle. -/
def check_for_replies (handler : InboundMessage → Bool) (mb : Mailbox) :
    List InboundMessage × Mailbox :=
  let r := process_messages handler (unseen_messages mb) mb.seen
  (r.1, ⟨mb.messages, r.2⟩)

/-- A model collaborator that raises on every call (service unreachable). -/
def model_down : Model := fun _ => none

/-- A transport whose send always succeeds. -/
def send_ok : Send := fun _ _ _ => true

/-- A transport whose send always fails. -/
def send_down : Send := fun _ _ _ => false

end SimpleSDR

set_option maxRecDepth 40000

deriving instance DecidableEq for Except

namespace SimpleSDR

theorem dictGet_dictPut_same (store : ConvStore) (key v : String) :
    dictGet (dictPut store key v) key = some v := by
  simp [dictGet, dictPut]

theorem dictGet_dictPut_other (store : ConvStore) (key key' v : String) (h : key ≠ key') :
    dictGet (dictPut store key v) key' = dictGet store key' := by
  simp [dictGet, dictPut, h]

theorem handle_reply_store_of_send_false (model : Model) (send : Send) (store : ConvStore)
    (from_email subject body : String)
    (h : send from_email (reply_subject subject)
      (generate_reply model ((dictGet store (lower from_email)).getD "") body) = false) :
    handle_reply model send store from_email subject body =
      (store,
       ⟨from_email, reply_subject subject,
        generate_reply model ((dictGet store (lower from_email)).getD "") body⟩, false) := by
  unfold handle_reply
  simp [h]

theorem handle_reply_store_of_send_true (model : Model) (send : Send) (store : ConvStore)
    (from_email subject body : String)
    (h : send from_email (reply_subject subject)
      (generate_reply model ((dictGet store (lower from_email)).getD "") body) = true) :
    handle_reply model send store from_email subject body =
      (dictPut store (lower from_email)
        (thread_update ((dictGet store (lower from_email)).getD "") body
          (generate_reply model ((dictGet store (lower from_email)).getD "") body)),
       ⟨from_email, reply_subject subject,
        generate_reply model ((dictGet store (lower from_email)).getD "") body⟩, true) := by
  unfold handle_reply
  simp [h]

/-- C2: if the transport send of the follow-up reports failure, the Reply
Handler leaves the Conversation Store exactly as it was — the store update
is guarded by the success flag, so no partial update is written. -/
theorem C2_no_partial_update_on_send_failure (model : Model) (send : Send)
    (store : ConvStore) (from_email subject body : String)
    (h : (handle_reply model send store from_email subject body).2.2 = false) :
    (handle_reply model send store from_email subject body).1 = store := by
  rcases hs : send from_email (reply_subject subject)
      (generate_reply model ((dictGet store (lower from_email)).getD "") body) with _ | _
  · rw [handle_reply_store_of_send_false model send store from_email subject body hs]
  · rw [handle_reply_store_of_send_true model send store from_email subject body hs] at h
    simp at h

/-- Witness for C2: a concrete invocation whose send fails leaves the
concrete store untouched. -/
theorem C2_witness :
    (handle_reply model_down send_down [("a@b.com", "orig")] "a@b.com" "Hi" "Tell me more").2.2
      = false ∧
    (handle_reply model_down send_down [("a@b.com", "orig")] "a@b.com" "Hi" "Tell me more").1 =
      [("a@b.com", "orig")] :=
  ⟨by decide,
   C2_no_partial_update_on_send_failure model_down send_down [("a@b.com", "orig")]
     "a@b.com" "Hi" "Tell me more" (by decide)⟩

/-- C3: the Reply Handler sends under the subject "Re: " ++ s when s does
not start with the case-sensitive prefix "Re:", and under s unchanged
otherwise; in particular "Demo" maps to "Re: Demo" and "Re: Demo" to
"Re: Demo". -/
theorem C3_reply_subject_spec :
    (∀ (model : Model) (send : Send) (store : ConvStore) (from_email subject body : String),
      (handle_reply model send store from_email subject body).2.1.subject =
        if starts_with subject "Re:" then subject else "Re: " ++ subject) ∧
    (handle_reply model_down send_ok [] "x@y.com" "Demo" "b").2.1.subject = "Re: Demo" ∧
    (handle_reply model_down send_ok [] "x@y.com" "Re: Demo" "b").2.1.subject = "Re: Demo" := by
  refine ⟨fun model send store from_email subject body => ?_, by decide, by decide⟩
  unfold handle_reply reply_subject
  dsimp only
  split <;> split <;> rfl

/-- C4: when the send succeeds, the new Conversation Store value at the
sender's key is the prior thread, then the labeled their-reply segment
containing the inbound body, then the labeled my-reply segment containing
the generated follow-up — and the prior thread text is a prefix of the new
value. -/
theorem C4_thread_append_only (model : Model) (send : Send) (store : ConvStore)
    (from_email subject body : String)
    (h : (handle_reply model send store from_email subject body).2.2 = true) :
    dictGet (handle_reply model send store from_email subject body).1 (lower from_email) =
      some (((dictGet store (lower from_email)).getD "") ++ "\n\n--- THEIR REPLY ---\n" ++
        body ++ "\n\n--- MY REPLY ---\n" ++
        generate_reply model ((dictGet store (lower from_email)).getD "") body) ∧
    ∃ rest,
      ((dictGet store (lower from_email)).getD "") ++ "\n\n--- THEIR REPLY ---\n" ++
        body ++ "\n\n--- MY REPLY ---\n" ++
        generate_reply model ((dictGet store (lower from_email)).getD "") body =
      ((dictGet store (lower from_email)).getD "") ++ rest := by
  rcases hs : send from_email (reply_subject subject)
      (generate_reply model ((dictGet store (lower from_email)).getD "") body) with _ | _
  · rw [handle_reply_store_of_send_false model send store from_email subject body hs] at h
    simp at h
  · rw [handle_reply_store_of_send_true model send store from_email subject body hs]
    constructor
    · exact dictGet_dictPut_same store (lower from_email) _
    · exact ⟨"\n\n--- THEIR REPLY ---\n" ++ (body ++ ("\n\n--- MY REPLY ---\n" ++
        generate_reply model ((dictGet store (lower from_email)).getD "") body)),
        by simp [String.append_assoc]⟩

/-- Witness for C4: a concrete successful invocation appends the
three-part update after the prior thread. -/
theorem C4_witness :
    (handle_reply model_down send_ok [("a@b.com", "orig")] "a@b.com" "Hi" "Tell me more").2.2
      = true ∧
    dictGet (handle_reply model_down send_ok [("a@b.com", "orig")]
        "a@b.com" "Hi" "Tell me more").1 (lower "a@b.com") =
      some ("orig" ++ "\n\n--- THEIR REPLY ---\n" ++ "Tell me more" ++
        "\n\n--- MY REPLY ---\n" ++ fallback_reply) ∧
    ∃ rest,
      ("orig" : String) ++ "\n\n--- THEIR REPLY ---\n" ++ "Tell me more" ++
        "\n\n--- MY REPLY ---\n" ++ fallback_reply = "orig" ++ rest :=
  ⟨by decide,
   (C4_thread_append_only model_down send_ok [("a@b.com", "orig")]
     "a@b.com" "Hi" "Tell me more" (by decide)).1,
   (C4_thread_append_only model_down send_ok [("a@b.com", "orig")]
     "a@b.com" "Hi" "Tell me more" (by decide)).2⟩

/-- C5 counterexample: the store key is the lower-cased address with NO
trimming, so an address written with surrounding whitespace is not found
by the whitespace-free spelling of the same address. -/
theorem C5_counterexample :
    conv_get (conv_put [] " a@b.com" "X") "a@b.com" = none ∧
    conv_get (conv_put [] " a@b.com" "X") "a@b.com" ≠ some "X" := by
  constructor <;> decide

/-- C5 (amended): put/get round-trips and lookup is case-insensitive —
two addresses equal up to letter case hit the same entry; normalization is
lower-casing only, with no trimming. -/
theorem C5_roundtrip_case_insensitive (store : ConvStore) (addr a1 a2 X : String) :
    conv_get (conv_put store addr X) addr = some X ∧
    (lower a1 = lower a2 → conv_get (conv_put store a1 X) a2 = some X) := by
  refine ⟨by simp [conv_get, conv_put, dictGet, dictPut], fun h => ?_⟩
  simp [conv_get, conv_put, dictGet, dictPut, h]

/-- Witness for C5 (amended): round-trip at "a@b.com" and case-insensitive
lookup of "A@B.com" after putting "a@b.com". -/
theorem C5_witness :
    conv_get (conv_put [] "a@b.com" "X") "a@b.com" = some "X" ∧
    lower "a@b.com" = lower "A@B.com" ∧
    conv_get (conv_put [] "a@b.com" "X") "A@B.com" = some "X" :=
  ⟨(C5_roundtrip_case_insensitive [] "a@b.com" "a@b.com" "A@B.com" "X").1, by decide,
   (C5_roundtrip_case_insensitive [] "a@b.com" "a@b.com" "A@B.com" "X").2 (by decide)⟩

/-- C6: for each of the three personas and any recipient title, when every
generation call fails `generate_cold_email` returns the deterministic
canned fallback email, which is non-empty; the function is total, so it
never raises. -/
theorem C6_generate_outbound_fallback (persona recipient : String)
    (h : persona ∈ (["professional", "engaging", "concise"] : List String)) :
    generate_cold_email model_down persona recipient = fallback_cold_email recipient ∧
    generate_cold_email model_down persona recipient ≠ "" := by
  refine ⟨rfl, ?_⟩
  intro he
  have hl := congrArg String.length he
  have h0 : ("" : String).length = 0 := by decide
  have h3 : ("Hi " : String).length = 3 := by decide
  simp only [generate_cold_email, model_down, fallback_cold_email,
    String.length_append, h0, h3] at hl
  omega

/-- Witness for C6: the "professional" persona with recipient title "CEO"
under a downed collaborator. -/
theorem C6_witness :
    ("professional" ∈ (["professional", "engaging", "concise"] : List String)) ∧
    generate_cold_email model_down "professional" "CEO" = fallback_cold_email "CEO" ∧
    generate_cold_email model_down "professional" "CEO" ≠ "" :=
  ⟨by decide,
   (C6_generate_outbound_fallback "professional" "CEO" (by decide)).1,
   (C6_generate_outbound_fallback "professional" "CEO" (by decide)).2⟩


theorem select_best_email_cons (model : Model) (e0 e1 e2 : String) (rest : List String) :
    select_best_email model (e0 :: e1 :: e2 :: rest) =
      match model (select_prompt e0 e1 e2) with
      | some content => Except.ok (strip content)
      | none => Except.ok e0 := rfl

/-- C7 counterexample: the code returns whatever the generation
collaborator answers; a collaborator that answers text that is none of the
three candidates makes `select_best_email` return text that is
content-equal to no input. -/
theorem C7_counterexample :
    select_best_email (fun _ => some "A colorful greeting card") ["a", "b", "c"] =
      Except.ok "A colorful greeting card" ∧
    "A colorful greeting card" ∉ (["a", "b", "c"] : List String) := by
  constructor <;> decide

/-- C7 (amended): on collaborator failure `select_best_email` returns
exactly `candidates[0]`; on success it returns the collaborator's
whitespace-stripped output, which is one of the three inputs whenever the
collaborator answers (up to stripping) one of them — membership is not
enforced by the code itself. -/
theorem C7_select_best_amended (model : Model) (e0 e1 e2 : String) :
    select_best_email model_down [e0, e1, e2] = Except.ok e0 ∧
    (∀ t, model (select_prompt e0 e1 e2) = some t →
      strip t ∈ ([e0, e1, e2] : List String) →
      select_best_email model [e0, e1, e2] ∈
        ([Except.ok e0, Except.ok e1, Except.ok e2] : List (Except String String))) := by
  refine ⟨rfl, fun t ht hm => ?_⟩
  rw [select_best_email_cons, ht]
  simp only [List.mem_cons, List.not_mem_nil, or_false] at hm
  rcases hm with h | h | h <;> simp [h]

/-- Witness for C7 (amended): failure returns the first candidate; a
collaborator answering "b" verbatim yields one of the inputs. -/
theorem C7_witness :
    select_best_email model_down ["a", "b", "c"] = Except.ok "a" ∧
    (((fun _ => some "b") : Model) (select_prompt "a" "b" "c") = some "b") ∧
    strip "b" ∈ (["a", "b", "c"] : List String) ∧
    select_best_email (fun _ => some "b") ["a", "b", "c"] ∈
      ([Except.ok "a", Except.ok "b", Except.ok "c"] : List (Except String String)) :=
  ⟨(C7_select_best_amended model_down "a" "b" "c").1, rfl, by decide,
   (C7_select_best_amended (fun _ => some "b") "a" "b" "c").2 "b" rfl (by decide)⟩

/-- Whether a `select_best_email` run raised (propagated an exception). -/
def result_is_error : Except String String → Bool
  | Except.error _ => true
  | Except.ok _ => false

/-- C10: the `try` of `select_best_email` guards only the model call; the
prompt indexes `emails[0..2]` outside it, so the call raises an
out-of-range error exactly when fewer than 3 candidates are supplied, and
with at least 3 candidates it never raises. -/
theorem C10_guard_covers_only_model_call (model : Model) (emails : List String) :
    result_is_error (select_best_email model emails) = decide (emails.length < 3) ∧
    (emails.length < 3 →
      select_best_email model emails = Except.error "IndexError: list index out of range") := by
  rcases emails with _ | ⟨a, _ | ⟨b, _ | ⟨c, rest⟩⟩⟩
  · exact ⟨rfl, fun _ => rfl⟩
  · exact ⟨rfl, fun _ => rfl⟩
  · exact ⟨rfl, fun _ => rfl⟩
  · have hlen : ¬ ((a :: b :: c :: rest).length < 3) := by
      simp [List.length]
    constructor
    · rw [select_best_email_cons]
      rcases hm : model (select_prompt a b c) with _ | t <;> simp [result_is_error, hlen]
    · intro hc
      exact absurd hc hlen


/-- Witness for C10: a two-element candidate list makes the call raise the
out-of-range error instead of falling back to the first candidate. -/
theorem C10_witness :
    result_is_error (select_best_email model_down ["a", "b"]) =
      decide ((["a", "b"] : List String).length < 3) ∧
    ((["a", "b"] : List String).length < 3) ∧
    select_best_email model_down ["a", "b"] =
      Except.error "IndexError: list index out of range" :=
  ⟨(C10_guard_covers_only_model_call model_down ["a", "b"]).1, by decide,
   (C10_guard_covers_only_model_call model_down ["a", "b"]).2 (by decide)⟩

/-- C1: at a concrete reply event from an address whose prior thread is
"orig" in the long-lived store, the polling path (`check_for_replies` →
`handle_reply` on the shared store) reads the prior thread and appends to
the shared store, while the webhook path (`handle_webhook_reply`)
constructs a fresh `SimpleSDR` whose store is empty, reads an empty prior
thread (its update is built on ""), and leaves the shared store unchanged:
the two paths do not converge on the same Conversation Store semantics. -/
theorem C1_webhook_path_not_equivalent :
    dictGet ([("a@b.com", "orig")] : ConvStore) (lower "a@b.com") = some "orig" ∧
    (handle_reply model_down send_ok [("a@b.com", "orig")] "a@b.com" "Hi" "Tell me more").1 =
      [("a@b.com", thread_update "orig" "Tell me more" fallback_reply),
       ("a@b.com", "orig")] ∧
    (handle_webhook_reply model_down send_ok [("a@b.com", "orig")]
        "a@b.com" "Hi" "Tell me more").1 = [("a@b.com", "orig")] ∧
    (handle_webhook_reply model_down send_ok [("a@b.com", "orig")]
        "a@b.com" "Hi" "Tell me more").2 =
      [("a@b.com", thread_update "" "Tell me more" fallback_reply)] ∧
    (handle_reply model_down send_ok [("a@b.com", "orig")] "a@b.com" "Hi" "Tell me more").1 ≠
      (handle_webhook_reply model_down send_ok [("a@b.com", "orig")]
        "a@b.com" "Hi" "Tell me more").1 := by
  refine ⟨by decide, by decide, by decide, by decide, by decide⟩

theorem process_messages_seen_mono (handler : InboundMessage → Bool)
    (l : List InboundMessage) (seen : List Nat) :
    ∀ i ∈ seen, i ∈ (process_messages handler l seen).2 := by
  induction l generalizing seen with
  | nil => intro i hi; simpa [process_messages] using hi
  | cons m rest ih =>
    intro i hi
    rcases hm : handler m with _ | _
    · simpa [process_messages, hm] using hi
    · simp only [process_messages, hm, if_true]
      exact ih (seen ++ [m.msg_id]) i (List.mem_append_left _ hi)

theorem process_messages_marks (handler : InboundMessage → Bool)
    (l : List InboundMessage) (seen : List Nat) :
    ∀ m, m ∈ (process_messages handler l seen).1 → handler m = true →
      m.msg_id ∈ (process_messages handler l seen).2 := by
  induction l generalizing seen with
  | nil => intro m hm; simp [process_messages] at hm
  | cons m rest ih =>
    intro m' hm' hh
    rcases hm : handler m with _ | _
    · simp only [process_messages, hm, if_false, Bool.false_eq_true, List.mem_singleton] at hm'
      rw [hm'] at hh
      rw [hh] at hm
      cases hm
    · simp only [process_messages, hm, if_true, List.mem_cons] at hm' ⊢
      rcases hm' with h | h
      · rw [h]
        exact process_messages_seen_mono handler rest (seen ++ [m.msg_id]) m.msg_id
          (List.mem_append_right _ (List.mem_singleton.mpr rfl))
      · exact ih (seen ++ [m.msg_id]) m' h hh

theorem process_messages_invoked_subset (handler : InboundMessage → Bool)
    (l : List InboundMessage) (seen : List Nat) :
    ∀ m, m ∈ (process_messages handler l seen).1 → m ∈ l := by
  induction l generalizing seen with
  | nil => intro m hm; simp [process_messages] at hm
  | cons m rest ih =>
    intro m' hm'
    rcases hm : handler m with _ | _
    · simp only [process_messages, hm, if_false, Bool.false_eq_true, List.mem_singleton] at hm'
      simp [hm']
    · simp only [process_messages, hm, if_true, List.mem_cons] at hm'
      rcases hm' with h | h
      · simp [h]
      · exact List.mem_cons_of_mem _ (ih (seen ++ [m.msg_id]) m' h)

theorem mem_unseen_not_seen (mb : Mailbox) (m : InboundMessage)
    (hm : m ∈ unseen_messages mb) : m.msg_id ∉ mb.seen := by
  rw [unseen_messages, List.mem_filter] at hm
  intro hc
  have : mb.seen.contains m.msg_id = true := List.elem_iff.mpr hc
  rw [this] at hm
  simp at hm

/-- C8 counterexample: a message on which the Reply Handler was invoked
but whose handling raised is NOT marked seen (the `+FLAGS \Seen` store
runs after `handle_reply`, inside the same `try`), so the very same
message is returned again by the next poll cycle — delivery to the Reply
Handler is not at-most-once. -/
theorem C8_counterexample :
    (⟨1, "x@y.com", "Hi", "Tell me more"⟩ : InboundMessage) ∈
      (check_for_replies (fun _ => false) ⟨[⟨1, "x@y.com", "Hi", "Tell me more"⟩], []⟩).1 ∧
    (⟨1, "x@y.com", "Hi", "Tell me more"⟩ : InboundMessage) ∈
      (check_for_replies (fun _ => false)
        (check_for_replies (fun _ => false)
          ⟨[⟨1, "x@y.com", "Hi", "Tell me more"⟩], []⟩).2).1 := by
  constructor <;> decide

/-- C8 (amended): seen ids only accumulate across a cycle; every message
the handler was invoked on whose handling completed without raising is
marked seen — even if a later message in the same cycle raises — and a
message whose id is flagged seen is never delivered by a subsequent poll
cycle.  Only a message whose own handling raises escapes the mark and is
redelivered. -/
theorem C8_amended_seen_semantics (handler : InboundMessage → Bool) (mb : Mailbox) :
    (∀ i, i ∈ mb.seen → i ∈ (check_for_replies handler mb).2.seen) ∧
    (∀ m, m ∈ (check_for_replies handler mb).1 → handler m = true →
      m.msg_id ∈ (check_for_replies handler mb).2.seen) ∧
    (∀ (handler2 : InboundMessage → Bool) m,
      m.msg_id ∈ (check_for_replies handler mb).2.seen →
      m ∉ (check_for_replies handler2 (check_for_replies handler mb).2).1) := by
  refine ⟨fun i hi => ?_, fun m hm hh => ?_, fun handler2 m hmseen hmem => ?_⟩
  · exact process_messages_seen_mono handler (unseen_messages mb) mb.seen i hi
  · exact process_messages_marks handler (unseen_messages mb) mb.seen m hm hh
  · have hsub := process_messages_invoked_subset handler2
      (unseen_messages (check_for_replies handler mb).2)
      (check_for_replies handler mb).2.seen m hmem
    exact mem_unseen_not_seen (check_for_replies handler mb).2 m hsub hmseen

/-- Witness for C8 (amended): two messages, the handler completes on the
first and raises on the second; the first is marked seen and not delivered
by the next poll. -/
theorem C8_witness :
    ((1 : Nat) ∈
      (check_for_replies (fun m => m.msg_id == 1)
        ⟨[⟨1, "x@y.com", "Hi", "b1"⟩, ⟨2, "z@w.com", "Yo", "b2"⟩], []⟩).2.seen) ∧
    ((⟨1, "x@y.com", "Hi", "b1"⟩ : InboundMessage) ∉
      (check_for_replies (fun m => m.msg_id == 1)
        (check_for_replies (fun m => m.msg_id == 1)
          ⟨[⟨1, "x@y.com", "Hi", "b1"⟩, ⟨2, "z@w.com", "Yo", "b2"⟩], []⟩).2).1) :=
  ⟨(C8_amended_seen_semantics (fun m => m.msg_id == 1)
      ⟨[⟨1, "x@y.com", "Hi", "b1"⟩, ⟨2, "z@w.com", "Yo", "b2"⟩], []⟩).2.1
      ⟨1, "x@y.com", "Hi", "b1"⟩ (by decide) (by decide),
   (C8_amended_seen_semantics (fun m => m.msg_id == 1)
      ⟨[⟨1, "x@y.com", "Hi", "b1"⟩, ⟨2, "z@w.com", "Yo", "b2"⟩], []⟩).2.2
      (fun m => m.msg_id == 1) ⟨1, "x@y.com", "Hi", "b1"⟩
      ((C8_amended_seen_semantics (fun m => m.msg_id == 1)
        ⟨[⟨1, "x@y.com", "Hi", "b1"⟩, ⟨2, "z@w.com", "Yo", "b2"⟩], []⟩).2.1
        ⟨1, "x@y.com", "Hi", "b1"⟩ (by decide) (by decide))⟩

/-- C9: the Reply Handler keys the store by the lower-cased RAW From
string (no address extraction, no trimming) while the Campaign Runner keys
by the lower-cased recipient; when the From value differs from the
campaign recipient (up to case), the handler reads an empty prior thread
and writes under a different key, leaving the campaign-seeded entry
behind. -/
theorem C9_key_mismatch (model : Model) (recipient from_email subject body : String)
    (h : lower from_email ≠ lower recipient) :
    ∃ best store1,
      run_cold_email_campaign model send_ok [] [recipient] = Except.ok store1 ∧
      dictGet store1 (lower recipient) = some best ∧
      dictGet store1 (lower from_email) = none ∧
      (handle_reply model send_ok store1 from_email subject body).1 =
        dictPut store1 (lower from_email)
          (thread_update "" body (generate_reply model "" body)) ∧
      dictGet ((handle_reply model send_ok store1 from_email subject body).1)
        (lower recipient) = some best := by
  rcases hsel : select_best_email model
      (["professional", "engaging", "concise"].map
        (fun p => generate_cold_email model p "CEO")) with e | best_email
  · exfalso
    rw [show (["professional", "engaging", "concise"].map
        (fun p => generate_cold_email model p "CEO")) =
        [generate_cold_email model "professional" "CEO",
         generate_cold_email model "engaging" "CEO",
         generate_cold_email model "concise" "CEO"] from rfl,
      select_best_email_cons] at hsel
    rcases hmm : model (select_prompt (generate_cold_email model "professional" "CEO")
      (generate_cold_email model "engaging" "CEO")
      (generate_cold_email model "concise" "CEO")) with _ | t <;>
      rw [hmm] at hsel <;> simp at hsel
  · refine ⟨best_email, [(lower recipient, best_email)], ?_, ?_, ?_, ?_, ?_⟩
    · simp only [run_cold_email_campaign, hsel]
      simp [send_ok, dictPut]
    · simp [dictGet]
    · simp [dictGet, Ne.symm h]
    · have hnone : dictGet [(lower recipient, best_email)] (lower from_email) = none := by
        simp [dictGet, Ne.symm h]
      rw [handle_reply_store_of_send_true model send_ok [(lower recipient, best_email)]
        from_email subject body rfl]
      simp [hnone]
    · have hnone : dictGet [(lower recipient, best_email)] (lower from_email) = none := by
        simp [dictGet, Ne.symm h]
      rw [handle_reply_store_of_send_true model send_ok [(lower recipient, best_email)]
        from_email subject body rfl]
      dsimp only
      rw [dictGet_dictPut_other _ _ _ _ h]
      simp [dictGet]

/-- Witness for C9: the campaign recipient "a@b.com" replies with a From
header of the form "Name <a@b.com>". -/
theorem C9_witness :
    (lower "Name <a@b.com>" ≠ lower "a@b.com") ∧
    (∃ best store1,
      run_cold_email_campaign model_down send_ok [] ["a@b.com"] = Except.ok store1 ∧
      dictGet store1 (lower "a@b.com") = some best ∧
      dictGet store1 (lower "Name <a@b.com>") = none ∧
      (handle_reply model_down send_ok store1 "Name <a@b.com>" "Hi" "Tell me more").1 =
        dictPut store1 (lower "Name <a@b.com>")
          (thread_update "" "Tell me more" (generate_reply model_down "" "Tell me more")) ∧
      dictGet ((handle_reply model_down send_ok store1
          "Name <a@b.com>" "Hi" "Tell me more").1) (lower "a@b.com") = some best) :=
  ⟨by decide,
   C9_key_mismatch model_down "a@b.com" "Name <a@b.com>" "Hi" "Tell me more" (by decide)⟩

end SimpleSDR
